import Mathlib

/-!
# VeilNet portal: lifecycle, route configuration and forwarding

A shallow embedding of `portal/portal.go`.

* Go strings are modelled as lists of Unicode code points (`Str`), i.e. the
  valid UTF-8 strings; `strings.Split`, `strings.Fields` and
  `strings.HasPrefix` are modelled on that representation.
* Everything outside the process (the `ip`/`iptables`/`sysctl` commands, DNS,
  the TUN device, the anchor library) is an `Env` of outcomes; the result of a
  `cmd.Run()` may depend on the whole history of earlier events.
* Every externally visible action is appended to a trace of `Event`s.
-/

namespace VeilNet

/-! ## Strings -/

/-- Go `string`, as a list of code points. -/
abbrev Str := List Char

/-- Go `error` values, identified with their message. -/
abbrev Err := Str

/-- Go `[]byte`. -/
abbrev Bytes := List Nat

/-- Go `net.IP`: a byte slice of length 4 or 16. -/
abbrev IP := List Nat

/-- Go `strings.Split(s, sep)` for a separator of one character: the pieces of
`s` between the occurrences of `sep` (never an empty list). -/
def Split (sep : Char) : Str → List Str
  | [] => [[]]
  | c :: cs =>
    if c = sep then [] :: Split sep cs
    else
      match Split sep cs with
      | [] => [[c]]
      | piece :: pieces => (c :: piece) :: pieces

/-- Go `unicode.IsSpace`. -/
def isSpace (c : Char) : Bool :=
  let n := c.toNat
  n == 0x09 || n == 0x0A || n == 0x0B || n == 0x0C || n == 0x0D || n == 0x20 ||
  n == 0x85 || n == 0xA0 || n == 0x1680 || (0x2000 ≤ n && n ≤ 0x200A) ||
  n == 0x2028 || n == 0x2029 || n == 0x202F || n == 0x205F || n == 0x3000

/-- Scanner behind `Fields`: `cur` is the field being read. -/
def fieldsFrom : Str → Str → List Str
  | [], cur => if cur = [] then [] else [cur]
  | c :: cs, cur =>
    if isSpace c then
      if cur = [] then fieldsFrom cs [] else cur :: fieldsFrom cs []
    else fieldsFrom cs (cur ++ [c])

/-- Go `strings.Fields(s)`: the maximal runs of non-space characters. -/
def Fields (s : Str) : List Str := fieldsFrom s []

/-- Go `strings.HasPrefix(s, p)`. -/
def HasPrefix (s p : Str) : Bool := p.isPrefixOf s

/-- Go `fmt.Sprintf("%s/%s", a, b)`. -/
def sprintfSlash (a b : Str) : Str := a ++ "/".toList ++ b

/-! ## Default-route discovery -/

/-- The inner loop of `getDefaultGateway`:
`for i := 0; i < len(fields); i++ { ... }`, started at `i` with the current
values of `gateway` and `iface`; `fuel` bounds the number of iterations. -/
def fieldLoop (fields : List Str) : Nat → Nat → Str → Str → Str × Str
  | 0, _, gateway, iface => (gateway, iface)
  | fuel + 1, i, gateway, iface =>
    if i < fields.length then
      let gateway :=
        if fields.getD i [] = "via".toList ∧ i + 1 < fields.length then fields.getD (i + 1) []
        else gateway
      let iface :=
        if fields.getD i [] = "dev".toList ∧ i + 1 < fields.length then fields.getD (i + 1) []
        else iface
      fieldLoop fields fuel (i + 1) gateway iface
    else (gateway, iface)

/-- The outer loop of `getDefaultGateway`: `for _, line := range lines`, which
stops (`break`) at the first line that begins with "default". -/
def lineLoop : List Str → Str × Str
  | [] => ([], [])
  | line :: rest =>
    if HasPrefix line "default".toList then
      let fields := Fields line
      fieldLoop fields fields.length 0 [] []
    else lineLoop rest

/-- The error of `getDefaultGateway` when no usable default route is found. -/
def errNotFound : Err := "default gateway or interface not found".toList

/-- The part of `getDefaultGateway` after `cmd.Output()` has returned
`(out, outErr)`: the results `(gateway, iface, err)`. -/
def parseDefaultRoute (out : Str) (outErr : Option Err) : Str × Str × Option Err :=
  match outErr with
  | some err => ([], [], some err)
  | none =>
    let lines := Split '\n' out
    let (gateway, iface) := lineLoop lines
    if gateway = [] ∨ iface = [] then ([], [], some errNotFound)
    else (gateway, iface, none)

/-! ## The portal, its environment and the trace of actions -/

/-- An externally visible action of the process. -/
inductive Event where
  /-- An `exec.Command(argv...).Output()` call. -/
  | output (argv : List Str)
  /-- An `exec.Command(argv...).Run()` call. -/
  | run (argv : List Str)
  /-- A call of `tun.CreateTUN(name, mtu)`. -/
  | createTUN (name : Str) (mtu : Nat)
  /-- A call of `veilnet.NewAnchor(true, public)`. -/
  | newAnchor (pub : Bool)
  /-- A call of `anchor.Start(apiBaseURL, anchorToken, anchorName, domainName, region)`. -/
  | anchorStart (apiBaseURL anchorToken anchorName domainName region : Str)
  /-- A call of `anchor.GetCIDR()`. -/
  | anchorGetCIDR
  /-- The statement `go p.ingress()`. -/
  | goIngress
  /-- The statement `go p.egress()`. -/
  | goEgress
  /-- The call `echo.New()` together with the route registrations. -/
  | echoNew
  /-- The goroutine running `p.e.Start(":3000")`. -/
  | goEchoStart
  /-- The call `r.cancel()` of the portal's own context. -/
  | cancel
  /-- The call `r.anchor.Stop()`. -/
  | anchorStop
  /-- The call `r.device.Close()`. -/
  | deviceClose
  /-- The call `r.e.Shutdown(...)`. -/
  | echoShutdown
  /-- The call `p.device.Write(bufs, offset)`. -/
  | deviceWrite (bufs : List Bytes) (offset : Nat)
  /-- The call `p.anchor.Write(bufs, sizes)`. -/
  | anchorWrite (bufs : List Bytes) (sizes : List Int)
  deriving DecidableEq, Repr

/-- The outcomes of everything outside the process. -/
structure Env where
  /-- Result of `ip route show default` (`cmd.Output()`). -/
  routeShow : Str × Option Err
  /-- Result of `net.LookupIP(host)`. -/
  lookupIP : Str → List IP × Option Err
  /-- Result of a `cmd.Run()` of `argv` after the given history. -/
  run : List Event → List Str → Option Err
  /-- Error of `tun.CreateTUN`, if any. -/
  createTUN : Option Err
  /-- Error of `veilnet.NewAnchor`, if any. -/
  newAnchor : Option Err
  /-- Error of `anchor.Start`, if any. -/
  anchorStart : Option Err
  /-- Result of `anchor.GetCIDR()`. -/
  getCIDR : Str × Option Err
  /-- Whether `anchor.Stop()` cancels the anchor's own context `anchor.Ctx`. -/
  anchorStopCancelsCtx : Bool

/-- The fields of the Go struct `Portal`; a pointer or interface field is
`true` when it is non-nil. -/
structure Portal where
  anchor : Bool
  device : Bool
  gateway : Str
  iface : Str
  e : Bool
  /-- The done flag of `once sync.Once`. -/
  once : Bool
  /-- Whether `ctx` (the context made in `NewPortal`) has been cancelled. -/
  ctxDone : Bool
  deriving DecidableEq, Repr

/-- The portal together with the part of the world it acts on. -/
structure State where
  portal : Portal
  /-- Whether the anchor's own context `anchor.Ctx` is done. -/
  anchorCtxDone : Bool
  /-- The actions performed so far, oldest first. -/
  trace : List Event
  deriving DecidableEq, Repr

/-- The arguments of `Start`. -/
structure StartArgs where
  apiBaseURL : Str
  anchorToken : Str
  anchorName : Str
  domainName : Str
  region : Str
  hostInterface : Str
  pub : Bool

/-- Go `NewPortal()`: a fresh context, every other field zero. -/
def NewPortal : State :=
  { portal := { anchor := false, device := false, gateway := [], iface := [], e := false,
                once := false, ctxDone := false },
    anchorCtxDone := false,
    trace := [] }

/-- Append an event to the trace. -/
def State.emit (s : State) (ev : Event) : State := { s with trace := s.trace ++ [ev] }

/-- Go `exec.Command(argv...).Run()`: the command is recorded and its result
is the one the environment gives after the history so far. -/
def runCmd (env : Env) (s : State) (argv : List Str) : State × Option Err :=
  (s.emit (Event.run argv), env.run s.trace argv)

/-- Go `getDefaultGateway()`. -/
def getDefaultGateway (env : Env) (s : State) : State × (Str × Str × Option Err) :=
  let s := s.emit (Event.output ["ip".toList, "route".toList, "show".toList, "default".toList])
  (s, parseDefaultRoute env.routeShow.1 env.routeShow.2)

/-! ## Bypass routes -/

/-- Go `isZeros`. -/
def isZeros (p : List Nat) : Bool := p.all (fun b => b == 0)

/-- Go `net.IP.To4`: `none` is the nil result. -/
def To4 (ip : IP) : Option IP :=
  if ip.length = 4 then some ip
  else if ip.length = 16 ∧ isZeros (ip.take 10) = true ∧ ip.getD 10 0 = 0xff ∧ ip.getD 11 0 = 0xff then
    some (ip.drop 12)
  else none

/-- Go `net.IP.String` of a 4-byte address: dotted decimal. -/
def ipString (ip4 : IP) : Str :=
  ".".toList.intercalate (ip4.map (fun b => Nat.toDigits 10 b))

/-- The hostnames of `setBypassRoutes`. -/
def hosts : List Str :=
  ["stun.cloudflare.com".toList, "turn.cloudflare.com".toList, "guardian.veilnet.org".toList]

/-- The argument vector of the route command of `setBypassRoutes`. -/
def routeAddArgv (dest gateway iface : Str) : List Str :=
  ["ip".toList, "route".toList, "add".toList, dest, "via".toList, gateway, "dev".toList, iface]

/-- Inner loop of `setBypassRoutes`: `for _, ip := range ips`. -/
def routeIPs (env : Env) : State → List IP → State
  | s, [] => s
  | s, ip :: rest =>
    match To4 ip with
    | some ip4 =>
      let dest := ipString ip4
      let s := (runCmd env s (routeAddArgv dest s.portal.gateway s.portal.iface)).1
      routeIPs env s rest
    | none => routeIPs env s rest

/-- Outer loop of `setBypassRoutes`: `for _, host := range hosts`. -/
def routeHosts (env : Env) : State → List Str → State
  | s, [] => s
  | s, host :: rest =>
    match env.lookupIP host with
    | (_, some _) => routeHosts env s rest
    | (ips, none) => routeHosts env (routeIPs env s ips) rest

/-- Go `Portal.setBypassRoutes`. -/
def setBypassRoutes (env : Env) (s : State) : State := routeHosts env s hosts

/-! ## Virtual-interface configuration and teardown -/

/-- Go `Portal.configTUN(ip, netmask)`. -/
def configTUN (env : Env) (s : State) (ip netmask : Str) : State × Option Err :=
  match runCmd env s ["ip".toList, "addr".toList, "flush".toList, "dev".toList, "veilnet".toList] with
  | (s, some err) => (s, some err)
  | (s, none) =>
  match runCmd env s ["ip".toList, "addr".toList, "add".toList, sprintfSlash ip netmask,
      "dev".toList, "veilnet".toList] with
  | (s, some err) => (s, some err)
  | (s, none) =>
  match runCmd env s ["iptables".toList, "-A".toList, "FORWARD".toList, "-i".toList,
      "veilnet".toList, "-j".toList, "ACCEPT".toList] with
  | (s, some err) => (s, some err)
  | (s, none) =>
  match runCmd env s ["iptables".toList, "-A".toList, "FORWARD".toList, "-o".toList,
      "veilnet".toList, "-j".toList, "ACCEPT".toList] with
  | (s, some err) => (s, some err)
  | (s, none) =>
  match runCmd env s ["iptables".toList, "-t".toList, "nat".toList, "-A".toList,
      "POSTROUTING".toList, "-o".toList, s.portal.iface, "-j".toList, "MASQUERADE".toList] with
  | (s, some err) => (s, some err)
  | (s, none) =>
  match runCmd env s ["ip".toList, "link".toList, "set".toList, "up".toList, "veilnet".toList] with
  | (s, some err) => (s, some err)
  | (s, none) =>
  match runCmd env s ["sysctl".toList, "-w".toList, "net.ipv4.ip_forward=1".toList] with
  | (s, some err) => (s, some err)
  | (s, none) => (s, none)

/-- Go `Portal.cleanUp()`: every error is only logged. -/
def cleanUp (env : Env) (s : State) : State :=
  let s := (runCmd env s ["iptables".toList, "-D".toList, "FORWARD".toList, "-i".toList,
      "veilnet".toList, "-j".toList, "ACCEPT".toList]).1
  let s := (runCmd env s ["iptables".toList, "-D".toList, "FORWARD".toList, "-o".toList,
      "veilnet".toList, "-j".toList, "ACCEPT".toList]).1
  let s := (runCmd env s ["iptables".toList, "-t".toList, "nat".toList, "-D".toList,
      "POSTROUTING".toList, "-o".toList, s.portal.iface, "-j".toList, "MASQUERADE".toList]).1
  let s := (runCmd env s ["sysctl".toList, "-w".toList, "net.ipv4.ip_forward=0".toList]).1
  s

/-! ## Lifecycle -/

/-- The error `fmt.Errorf("invalid CIDR format: %s", cidr)`. -/
def errInvalidCIDR (cidr : Str) : Err := "invalid CIDR format: ".toList ++ cidr

/-- Go `Portal.Start`. The embedded status-page template is taken to parse, so
`template.Must` does not panic. -/
def Start (env : Env) (s : State) (a : StartArgs) : State × Option Err :=
  -- Get the default gateway and interface
  match getDefaultGateway env s with
  | (s, (_, _, some err)) => (s, some err)
  | (s, (gateway, iface, none)) =>
  let s := { s with portal := { s.portal with gateway := gateway, iface := iface } }
  -- Set bypass routes
  let s := setBypassRoutes env s
  -- Create a new TUN device
  let s := s.emit (Event.createTUN "veilnet".toList 1500)
  match env.createTUN with
  | some err => (s, some err)
  | none =>
  let s := { s with portal := { s.portal with device := true } }
  -- Create a new anchor
  let s := s.emit (Event.newAnchor a.pub)
  match env.newAnchor with
  | some err => (s, some err)
  | none =>
  let s := { s with portal := { s.portal with anchor := true } }
  -- Start the anchor
  let s := s.emit (Event.anchorStart a.apiBaseURL a.anchorToken a.anchorName a.domainName a.region)
  match env.anchorStart with
  | some err => (s, some err)
  | none =>
  -- Get the IP address
  let s := s.emit Event.anchorGetCIDR
  match env.getCIDR with
  | (_, some err) => (s, some err)
  | (cidr, none) =>
  -- Split CIDR into IP and netmask
  let parts := Split '/' cidr
  if parts.length ≠ 2 then (s, some (errInvalidCIDR cidr))
  else
  let ip := parts.getD 0 []
  let netmask := parts.getD 1 []
  -- Configure the TUN interface (the returned error is dropped)
  let s := (configTUN env s ip netmask).1
  -- Start the ingress and egress goroutines
  let s := s.emit Event.goIngress
  let s := s.emit Event.goEgress
  -- Create a new Echo app
  let s := s.emit Event.echoNew
  let s := { s with portal := { s.portal with e := true } }
  let s := s.emit Event.goEchoStart
  (s, none)

/-- The function passed to `once.Do` in `Stop`, up to and including
`r.cancel()`. -/
def stopCancel (s : State) : State :=
  { s.emit Event.cancel with portal := { s.portal with ctxDone := true } }

/-- The function passed to `once.Do` in `Stop`, after `r.cancel()`. -/
def stopRest (env : Env) (s : State) : State :=
  -- Stop the anchor
  let s :=
    if s.portal.anchor then
      { s.emit Event.anchorStop with anchorCtxDone := s.anchorCtxDone || env.anchorStopCancelsCtx }
    else s
  -- Remove the TUN interface firewall rules
  let s := cleanUp env s
  -- Close the TUN device
  let s := if s.portal.device then s.emit Event.deviceClose else s
  -- Stop the Echo server
  let s := if s.portal.e then s.emit Event.echoShutdown else s
  s

/-- Go `Portal.Stop`: `once.Do` runs its function only when the done flag is
clear and sets the flag when the function has returned. -/
def Stop (env : Env) (s : State) : State :=
  if s.portal.once then s
  else
    let s := stopRest env (stopCancel s)
    { s with portal := { s.portal with once := true } }

/-- Call `Stop` `n` times in succession. -/
def stopTimes (env : Env) : Nat → State → State
  | 0, s => s
  | n + 1, s => stopTimes env n (Stop env s)

/-! ## Forwarding loops -/

/-- Go `make([]byte, n)`. -/
def make (n : Nat) : Bytes := List.replicate n 0

/-- Go `copy(dst, src)`: the contents of `dst` afterwards. -/
def copy (dst src : Bytes) : Bytes := src.take dst.length ++ dst.drop src.length

/-- What `anchor.Read(bufs, batchSize)` hands back: the contents of `bufs`
after the call (a slice of the same length as before), `n` and `err`. -/
structure AnchorRead where
  bufs : List Bytes
  n : Int
  err : Option Err

/-- What `device.Read(bufs, sizes, 0)` hands back. -/
structure DeviceRead where
  bufs : List Bytes
  sizes : List Int
  n : Int
  err : Option Err

/-- How far a forwarding loop has got. -/
inductive Loop where
  /-- The loop saw the done signal and returned. -/
  | exited (s : State)
  /-- The goroutine panicked. -/
  | panicked (s : State) (msg : Str)
  /-- The loop passed its cancellation check and waits in its read call. -/
  | running (s : State)
  /-- The model ran out of fuel. -/
  | outOfFuel
  deriving DecidableEq, Repr

/-- The frame loop of `ingress`: `for i := 0; i < n; i++ { ... }` from index
`i` on; `none` is the index-out-of-range panic of `bufs[i]`. -/
def shiftLoop (n : Int) : Nat → Nat → List Bytes → Option (Option (List Bytes))
  | 0, i, bufs => if (i : Int) < n then none else some (some bufs)
  | fuel + 1, i, bufs =>
    if (i : Int) < n then
      match bufs.get? i with
      | none => some none
      | some b =>
        let newBuf := make (16 + b.length)
        let newBuf := newBuf.take 16 ++ copy (newBuf.drop 16) b
        shiftLoop n fuel (i + 1) (bufs.set i newBuf)
    else some (some bufs)

/-- The runtime panic of a method call on a nil interface or a field access
through a nil pointer. -/
def errNilDeref : Err := "invalid memory address or nil pointer dereference".toList

/-- The `for` loop of `ingress`, run against the successive answers of
`anchor.Read`. Each pass reads `p.anchor.Ctx` (a nil `p.anchor` panics), then
calls `p.device.BatchSize()` for the read (a nil `p.device` panics). -/
def ingressLoop : State → List AnchorRead → Loop
  | s, [] =>
    if s.portal.anchor = false then Loop.panicked s errNilDeref
    else if s.anchorCtxDone then Loop.exited s
    else if s.portal.device = false then Loop.panicked s errNilDeref
    else Loop.running s
  | s, rd :: rest =>
    if s.portal.anchor = false then Loop.panicked s errNilDeref
    else if s.anchorCtxDone then Loop.exited s
    else if s.portal.device = false then Loop.panicked s errNilDeref
    else
      match rd.err with
      | some err => Loop.panicked s err
      | none =>
        match shiftLoop rd.n rd.n.toNat 0 rd.bufs with
        | none => Loop.outOfFuel
        | some none => Loop.panicked s "index out of range".toList
        | some (some bufs) =>
          if rd.n < 0 ∨ (bufs.length : Int) < rd.n then
            Loop.panicked s "slice bounds out of range".toList
          else ingressLoop (s.emit (Event.deviceWrite (bufs.take rd.n.toNat) 16)) rest

/-- Go `Portal.ingress`: `p.device.BatchSize()` sizes the buffers before the
loop, so a nil `p.device` panics at once. -/
def ingress (s : State) (reads : List AnchorRead) : Loop :=
  if s.portal.device = false then Loop.panicked s errNilDeref
  else ingressLoop s reads

/-- The `for` loop of `egress`, run against the successive answers of
`device.Read` (which include the buffers, allocated at the MTU before the
loop). Each pass reads `p.anchor.Ctx` (a nil `p.anchor` panics), then calls
`p.device.Read` (a nil `p.device` panics). -/
def egressLoop : State → List DeviceRead → Loop
  | s, [] =>
    if s.portal.anchor = false then Loop.panicked s errNilDeref
    else if s.anchorCtxDone then Loop.exited s
    else if s.portal.device = false then Loop.panicked s errNilDeref
    else Loop.running s
  | s, rd :: rest =>
    if s.portal.anchor = false then Loop.panicked s errNilDeref
    else if s.anchorCtxDone then Loop.exited s
    else if s.portal.device = false then Loop.panicked s errNilDeref
    else
      match rd.err with
      | some _ => egressLoop s rest
      | none =>
        if rd.n < 0 ∨ (rd.bufs.length : Int) < rd.n ∨ (rd.sizes.length : Int) < rd.n then
          Loop.panicked s "slice bounds out of range".toList
        else
          egressLoop
            (s.emit (Event.anchorWrite (rd.bufs.take rd.n.toNat) (rd.sizes.take rd.n.toNat))) rest

/-- Go `Portal.egress`: `p.device.BatchSize()` and `p.device.MTU()` are called
before the loop, so a nil `p.device` panics at once. -/
def egress (s : State) (reads : List DeviceRead) : Loop :=
  if s.portal.device = false then Loop.panicked s errNilDeref
  else egressLoop s reads

/-! ## Vocabulary of the statements -/

/-- The line begins with "default". -/
def isDefaultLine (line : Str) : Bool := HasPrefix line "default".toList

/-- The first line of `out` that begins with "default", if there is one. -/
def firstDefaultLine (out : Str) : Option Str :=
  (Split '\n' out).find? isDefaultLine

/-- Field `i` of `fields` is the token `tok` and is followed by another field. -/
def TokenAt (fields : List Str) (tok : Str) (i : Nat) : Prop :=
  fields.getD i [] = tok ∧ i + 1 < fields.length

/-- Field `i` of `fields` is the last occurrence of `tok` that is followed by
another field. -/
def LastTokenAt (fields : List Str) (tok : Str) (i : Nat) : Prop :=
  TokenAt fields tok i ∧ ∀ k, i < k → ¬ TokenAt fields tok k

/-- The route commands `setBypassRoutes` issues for the addresses `ips` of one
hostname: one per address that `To4` accepts, in order. -/
def ipEvents (gateway iface : Str) (ips : List IP) : List Event :=
  ips.filterMap (fun ip =>
    (To4 ip).map (fun ip4 => Event.run (routeAddArgv (ipString ip4) gateway iface)))

/-- The route commands for one hostname: none when its lookup fails. -/
def hostEvents (env : Env) (gateway iface host : Str) : List Event :=
  match env.lookupIP host with
  | (_, some _) => []
  | (ips, none) => ipEvents gateway iface ips

/-- The route commands for the three bootstrap hostnames, in hostname order. -/
def bypassEvents (env : Env) (gateway iface : Str) : List Event :=
  hostEvents env gateway iface "stun.cloudflare.com".toList ++
  hostEvents env gateway iface "turn.cloudflare.com".toList ++
  hostEvents env gateway iface "guardian.veilnet.org".toList

/-- The seven commands of `configTUN`, in source order. -/
def configTUNCommands (ip netmask iface : Str) : List (List Str) :=
  [ ["ip".toList, "addr".toList, "flush".toList, "dev".toList, "veilnet".toList],
    ["ip".toList, "addr".toList, "add".toList, ip ++ "/".toList ++ netmask, "dev".toList,
      "veilnet".toList],
    ["iptables".toList, "-A".toList, "FORWARD".toList, "-i".toList, "veilnet".toList,
      "-j".toList, "ACCEPT".toList],
    ["iptables".toList, "-A".toList, "FORWARD".toList, "-o".toList, "veilnet".toList,
      "-j".toList, "ACCEPT".toList],
    ["iptables".toList, "-t".toList, "nat".toList, "-A".toList, "POSTROUTING".toList,
      "-o".toList, iface, "-j".toList, "MASQUERADE".toList],
    ["ip".toList, "link".toList, "set".toList, "up".toList, "veilnet".toList],
    ["sysctl".toList, "-w".toList, "net.ipv4.ip_forward=1".toList] ]

/-- The four commands of `cleanUp`, in source order. -/
def cleanUpCommands (iface : Str) : List (List Str) :=
  [ ["iptables".toList, "-D".toList, "FORWARD".toList, "-i".toList, "veilnet".toList,
      "-j".toList, "ACCEPT".toList],
    ["iptables".toList, "-D".toList, "FORWARD".toList, "-o".toList, "veilnet".toList,
      "-j".toList, "ACCEPT".toList],
    ["iptables".toList, "-t".toList, "nat".toList, "-D".toList, "POSTROUTING".toList,
      "-o".toList, iface, "-j".toList, "MASQUERADE".toList],
    ["sysctl".toList, "-w".toList, "net.ipv4.ip_forward=0".toList] ]

/-- Run the commands in order and stop after the first one that fails. -/
def runUntilFailure (env : Env) : State → List (List Str) → State × Option Err
  | s, [] => (s, none)
  | s, argv :: rest =>
    match runCmd env s argv with
    | (s, some err) => (s, some err)
    | (s, none) => runUntilFailure env s rest

/-- The result of command `k` of `cmds` when it is run from `s` after the
commands before it. -/
def resultAt (env : Env) (s : State) (cmds : List (List Str)) (k : Nat) : Option Err :=
  env.run (s.trace ++ (cmds.take k).map Event.run) (cmds.getD k [])

/-- The error `Start` returns, read off its checks in source order. -/
def startError (env : Env) : Option Err :=
  match parseDefaultRoute env.routeShow.1 env.routeShow.2 with
  | (_, _, some err) => some err
  | (_, _, none) =>
  match env.createTUN with
  | some err => some err
  | none =>
  match env.newAnchor with
  | some err => some err
  | none =>
  match env.anchorStart with
  | some err => some err
  | none =>
  match env.getCIDR with
  | (_, some err) => some err
  | (cidr, none) =>
  if (Split '/' cidr).length ≠ 2 then some (errInvalidCIDR cidr) else none

/-- The event is a `cmd.Run()` call. -/
def Event.isRun : Event → Bool
  | Event.run _ => true
  | _ => false

/-- The virtual interface was created: `tun.CreateTUN` was called and
returned no error. -/
def deviceCreated (env : Env) (s : State) : Bool :=
  decide (Event.createTUN "veilnet".toList 1500 ∈ s.trace) && env.createTUN.isNone

/-- The anchor was created: `veilnet.NewAnchor` was called and returned no
error. -/
def anchorCreated (env : Env) (a : StartArgs) (s : State) : Bool :=
  decide (Event.newAnchor a.pub ∈ s.trace) && env.newAnchor.isNone

/-- The status server was created: `echo.New()` was called. -/
def serverCreated (s : State) : Bool :=
  decide (Event.echoNew ∈ s.trace)

/-- The teardown sequence of `Stop` for a portal with the given fields. -/
def teardownEvents (p : Portal) : List Event :=
  [Event.cancel] ++ (if p.anchor then [Event.anchorStop] else []) ++
    (cleanUpCommands p.iface).map Event.run ++
    (if p.device then [Event.deviceClose] else []) ++
    (if p.e then [Event.echoShutdown] else [])

/-! ## Concrete inputs -/

/-- Arguments as `main` builds them. -/
def sampleArgs : StartArgs :=
  { apiBaseURL := "https://guardian.veilnet.org".toList,
    anchorToken := "token".toList,
    anchorName := "portal-1".toList,
    domainName := "example".toList,
    region := "au".toList,
    hostInterface := "eth0".toList,
    pub := true }

/-- A host where everything works: one default route, one IPv4 address for the
first hostname, one IPv6 address for the second, a failed lookup for the third,
and an anchor whose `Stop` cancels its own context. -/
def healthyEnv : Env :=
  { routeShow := ("default via 192.168.1.1 dev eth0 proto dhcp\n".toList, none),
    lookupIP := fun host =>
      if host = "stun.cloudflare.com".toList then ([[162, 159, 207, 0]], none)
      else if host = "turn.cloudflare.com".toList then
        ([[0x26, 0x06, 0x47, 0x00, 0, 0, 0, 0, 0, 0, 0, 0, 0, 0, 0, 1]], none)
      else ([], some "no such host".toList),
    run := fun _ _ => none,
    createTUN := none,
    newAnchor := none,
    anchorStart := none,
    getCIDR := ("10.0.0.2/24".toList, none),
    anchorStopCancelsCtx := true }

/-- The healthy host, except that `ip addr flush dev veilnet` fails. -/
def flushFailsEnv : Env :=
  { healthyEnv with
    run := fun _ argv =>
      if argv = ["ip".toList, "addr".toList, "flush".toList, "dev".toList, "veilnet".toList] then
        some "exit status 1".toList
      else none }

/-- The healthy host, except that `anchor.Start` fails. -/
def anchorFailsEnv : Env :=
  { healthyEnv with anchorStart := some "anchor start failed".toList }

/-- An `anchor.Read` that filled two of four buffers. -/
def sampleAnchorRead : AnchorRead :=
  { bufs := [[0x45, 0, 0, 20], [0x45, 1], [], []], n := 2, err := none }

/-- A `device.Read` that filled one of two buffers. -/
def sampleDeviceRead : DeviceRead :=
  { bufs := [[0x45, 0, 0, 20], [0, 0, 0, 0]], sizes := [4, 0], n := 1, err := none }

/-! ## Facts about the string functions -/

theorem Split_ne_nil (sep : Char) (s : Str) : Split sep s ≠ [] := by
  induction s with
  | nil => simp [Split]
  | cons c cs ih =>
    unfold Split
    split
    · simp
    · split <;> simp

theorem Split_length (sep : Char) (s : Str) : (Split sep s).length = s.count sep + 1 := by
  induction s with
  | nil => simp [Split]
  | cons c cs ih =>
    unfold Split
    by_cases h : c = sep
    · subst h
      simp [ih]
    · rw [if_neg h]
      have hc : (c == sep) = false := by simpa using h
      rw [List.count_cons, hc]
      cases hs : Split sep cs with
      | nil => exact absurd hs (Split_ne_nil sep cs)
      | cons piece pieces =>
        rw [hs] at ih
        simpa using ih

theorem Split_intercalate (sep : Char) (s : Str) : [sep].intercalate (Split sep s) = s := by
  induction s with
  | nil => simp [Split, List.intercalate]
  | cons c cs ih =>
    unfold Split
    by_cases h : c = sep
    · subst h
      rw [if_pos rfl]
      cases hs : Split c cs with
      | nil => exact absurd hs (Split_ne_nil c cs)
      | cons piece pieces =>
        rw [hs] at ih
        rw [← ih]
        simp [List.intercalate, List.intersperse]
    · rw [if_neg h]
      cases hs : Split sep cs with
      | nil => exact absurd hs (Split_ne_nil sep cs)
      | cons piece pieces =>
        rw [hs] at ih
        rw [← ih]
        cases pieces <;> simp [List.intercalate, List.intersperse]

theorem Split_not_mem (sep : Char) (s : Str) : ∀ piece ∈ Split sep s, sep ∉ piece := by
  induction s with
  | nil => simp [Split]
  | cons c cs ih =>
    unfold Split
    by_cases h : c = sep
    · subst h
      rw [if_pos rfl]
      intro piece hp
      rcases List.mem_cons.1 hp with rfl | hp
      · simp
      · exact ih piece hp
    · rw [if_neg h]
      cases hs : Split sep cs with
      | nil => exact absurd hs (Split_ne_nil sep cs)
      | cons piece pieces =>
        rw [hs] at ih
        intro q hq
        rcases List.mem_cons.1 hq with rfl | hq
        · intro hmem
          rcases List.mem_cons.1 hmem with heq | hmem
          · exact h heq.symm
          · exact ih piece (List.mem_cons_self _ _) hmem
        · exact ih q (List.mem_cons_of_mem _ hq)

theorem Split_of_not_mem (sep : Char) (s : Str) (h : sep ∉ s) : Split sep s = [s] := by
  induction s with
  | nil => simp [Split]
  | cons c cs ih =>
    have hc : c ≠ sep := fun e => h (by simp [e])
    have hcs : sep ∉ cs := fun e => h (List.mem_cons_of_mem _ e)
    unfold Split
    rw [if_neg hc, ih hcs]

theorem fieldsFrom_ne_nil (s cur : Str) : ∀ f ∈ fieldsFrom s cur, f ≠ [] := by
  induction s generalizing cur with
  | nil =>
    intro f hf
    unfold fieldsFrom at hf
    by_cases hc : cur = []
    · simp [hc] at hf
    · simp [hc] at hf
      rw [hf]; exact hc
  | cons c cs ih =>
    intro f hf
    unfold fieldsFrom at hf
    by_cases hsp : isSpace c = true
    · rw [if_pos hsp] at hf
      by_cases hc : cur = []
      · rw [if_pos hc] at hf
        exact ih [] f hf
      · rw [if_neg hc] at hf
        rcases List.mem_cons.1 hf with rfl | hf
        · exact hc
        · exact ih [] f hf
    · rw [if_neg hsp] at hf
      exact ih _ f hf

theorem Fields_ne_nil (s : Str) : ∀ f ∈ Fields s, f ≠ [] := fieldsFrom_ne_nil s []

theorem fieldLoop_gateway (fields : List Str) : ∀ (fuel i : Nat) (g d : Str),
    fields.length ≤ i + fuel →
    ((fieldLoop fields fuel i g d).1 = g ∧ ∀ k, i ≤ k → ¬ TokenAt fields "via".toList k) ∨
    ∃ k, i ≤ k ∧ LastTokenAt fields "via".toList k ∧
      (fieldLoop fields fuel i g d).1 = fields.getD (k + 1) [] := by
  intro fuel
  induction fuel with
  | zero =>
    intro i g d h
    left
    refine ⟨rfl, ?_⟩
    intro k hk ht
    have := ht.2
    omega
  | succ fuel ih =>
    intro i g d h
    unfold fieldLoop
    by_cases hi : i < fields.length
    · rw [if_pos hi]
      simp only []
      rcases ih (i + 1) (if fields.getD i [] = "via".toList ∧ i + 1 < fields.length
          then fields.getD (i + 1) [] else g)
          (if fields.getD i [] = "dev".toList ∧ i + 1 < fields.length
          then fields.getD (i + 1) [] else d) (by omega) with ⟨hres, hno⟩ | ⟨k, hk, hlast, hres⟩
      · by_cases ht : fields.getD i [] = "via".toList ∧ i + 1 < fields.length
        · right
          refine ⟨i, le_refl _, ⟨ht, fun k hk => hno k hk⟩, ?_⟩
          rw [hres, if_pos ht]
        · left
          refine ⟨by rw [hres, if_neg ht], ?_⟩
          intro k hk
          rcases Nat.eq_or_lt_of_le hk with rfl | hlt
          · exact ht
          · exact hno k hlt
      · right
        exact ⟨k, by omega, hlast, hres⟩
    · rw [if_neg hi]
      left
      refine ⟨rfl, ?_⟩
      intro k hk ht
      have := ht.2
      omega

theorem fieldLoop_iface (fields : List Str) : ∀ (fuel i : Nat) (g d : Str),
    fields.length ≤ i + fuel →
    ((fieldLoop fields fuel i g d).2 = d ∧ ∀ k, i ≤ k → ¬ TokenAt fields "dev".toList k) ∨
    ∃ k, i ≤ k ∧ LastTokenAt fields "dev".toList k ∧
      (fieldLoop fields fuel i g d).2 = fields.getD (k + 1) [] := by
  intro fuel
  induction fuel with
  | zero =>
    intro i g d h
    left
    refine ⟨rfl, ?_⟩
    intro k hk ht
    have := ht.2
    omega
  | succ fuel ih =>
    intro i g d h
    unfold fieldLoop
    by_cases hi : i < fields.length
    · rw [if_pos hi]
      simp only []
      rcases ih (i + 1) (if fields.getD i [] = "via".toList ∧ i + 1 < fields.length
          then fields.getD (i + 1) [] else g)
          (if fields.getD i [] = "dev".toList ∧ i + 1 < fields.length
          then fields.getD (i + 1) [] else d) (by omega) with ⟨hres, hno⟩ | ⟨k, hk, hlast, hres⟩
      · by_cases ht : fields.getD i [] = "dev".toList ∧ i + 1 < fields.length
        · right
          refine ⟨i, le_refl _, ⟨ht, fun k hk => hno k hk⟩, ?_⟩
          rw [hres, if_pos ht]
        · left
          refine ⟨by rw [hres, if_neg ht], ?_⟩
          intro k hk
          rcases Nat.eq_or_lt_of_le hk with rfl | hlt
          · exact ht
          · exact hno k hlt
      · right
        exact ⟨k, by omega, hlast, hres⟩
    · rw [if_neg hi]
      left
      refine ⟨rfl, ?_⟩
      intro k hk ht
      have := ht.2
      omega

theorem getD_mem_of_lt (fields : List Str) (i : Nat) (h : i < fields.length) :
    fields.getD i [] ∈ fields := by
  rw [List.getD_eq_getElem _ _ h]
  exact List.getElem_mem h

theorem lineLoop_eq_find (lines : List Str) :
    lineLoop lines =
      match lines.find? isDefaultLine with
      | none => ([], [])
      | some line => fieldLoop (Fields line) (Fields line).length 0 [] [] := by
  induction lines with
  | nil => rfl
  | cons line rest ih =>
    unfold lineLoop
    by_cases h : HasPrefix line "default".toList = true
    · have hf : isDefaultLine line = true := h
      rw [if_pos h, List.find?_cons_of_pos rest hf]
    · have hf : ¬ isDefaultLine line = true := h
      rw [if_neg h, List.find?_cons_of_neg rest hf, ih]

theorem parseDefaultRoute_of_first (out line : Str) (h : firstDefaultLine out = some line) :
    parseDefaultRoute out none =
      if (fieldLoop (Fields line) (Fields line).length 0 [] []).1 = [] ∨
          (fieldLoop (Fields line) (Fields line).length 0 [] []).2 = [] then
        ([], [], some errNotFound)
      else ((fieldLoop (Fields line) (Fields line).length 0 [] []).1,
            (fieldLoop (Fields line) (Fields line).length 0 [] []).2, none) := by
  unfold firstDefaultLine at h
  simp only [parseDefaultRoute, lineLoop_eq_find, h]

theorem parseDefaultRoute_of_no_first (out : Str) (h : firstDefaultLine out = none) :
    parseDefaultRoute out none = ([], [], some errNotFound) := by
  unfold firstDefaultLine at h
  simp [parseDefaultRoute, lineLoop_eq_find, h]

theorem firstDefaultLine_self (out line : Str) (h : firstDefaultLine out = some line) :
    firstDefaultLine line = some line := by
  unfold firstDefaultLine at h ⊢
  have hmem : line ∈ Split '\n' out := List.mem_of_find?_eq_some h
  have hp : isDefaultLine line = true := List.find?_some h
  rw [Split_of_not_mem '\n' line (Split_not_mem '\n' out line hmem)]
  exact List.find?_cons_of_pos [] hp

theorem LastTokenAt_unique (fields : List Str) (tok : Str) (i j : Nat)
    (hi : LastTokenAt fields tok i) (hj : LastTokenAt fields tok j) : i = j := by
  rcases Nat.lt_trichotomy i j with h | h | h
  · exact absurd hj.1 (hi.2 j h)
  · exact h
  · exact absurd hi.1 (hj.2 i h)

theorem parseDefaultRoute_cases (out line : Str) (h : firstDefaultLine out = some line) :
    (∃ i j, LastTokenAt (Fields line) "via".toList i ∧ LastTokenAt (Fields line) "dev".toList j ∧
        (Fields line).getD (i + 1) [] ≠ [] ∧ (Fields line).getD (j + 1) [] ≠ [] ∧
        parseDefaultRoute out none =
          ((Fields line).getD (i + 1) [], (Fields line).getD (j + 1) [], none)) ∨
    (((∀ k, ¬ TokenAt (Fields line) "via".toList k) ∨ (∀ k, ¬ TokenAt (Fields line) "dev".toList k)) ∧
        parseDefaultRoute out none = ([], [], some errNotFound)) := by
  rw [parseDefaultRoute_of_first out line h]
  have hg := fieldLoop_gateway (Fields line) (Fields line).length 0 [] [] (by omega)
  have hd := fieldLoop_iface (Fields line) (Fields line).length 0 [] [] (by omega)
  rcases hg with ⟨hg, hno⟩ | ⟨i, _, hi, hg⟩
  · right
    refine ⟨Or.inl (fun k => hno k (Nat.zero_le k)), ?_⟩
    rw [if_pos (Or.inl hg)]
  · rcases hd with ⟨hd, hno⟩ | ⟨j, _, hj, hd⟩
    · right
      refine ⟨Or.inr (fun k => hno k (Nat.zero_le k)), ?_⟩
      rw [if_pos (Or.inr hd)]
    · left
      have hgi : (Fields line).getD (i + 1) [] ≠ [] :=
        Fields_ne_nil line _ (getD_mem_of_lt _ _ hi.1.2)
      have hdj : (Fields line).getD (j + 1) [] ≠ [] :=
        Fields_ne_nil line _ (getD_mem_of_lt _ _ hj.1.2)
      refine ⟨i, j, hi, hj, hgi, hdj, ?_⟩
      rw [if_neg (by rw [hg, hd]; exact not_or.2 ⟨hgi, hdj⟩), hg, hd]

/-- C8: `getDefaultGateway` on a routing-table output `out` succeeds exactly
when the first line beginning with "default" has a "via" field followed by
another field and a "dev" field followed by another field; on success the
gateway and the interface are non-empty and are the fields after the (last
such) "via" and "dev" of that line; otherwise the results are two empty strings
and the not-found error; and the result is the one of the first default line
alone, whatever lines follow it. -/
theorem getDefaultGateway_first_default_line (env : Env) (s : State) (out : Str) :
    let res := (getDefaultGateway { env with routeShow := (out, none) } s).2
    (res.2.2 = none ↔
      ∃ line, firstDefaultLine out = some line ∧
        (∃ i, TokenAt (Fields line) "via".toList i) ∧ (∃ j, TokenAt (Fields line) "dev".toList j)) ∧
    (res.2.2 = none →
      res.1 ≠ [] ∧ res.2.1 ≠ [] ∧
      ∃ line i j, firstDefaultLine out = some line ∧
        LastTokenAt (Fields line) "via".toList i ∧ res.1 = (Fields line).getD (i + 1) [] ∧
        LastTokenAt (Fields line) "dev".toList j ∧ res.2.1 = (Fields line).getD (j + 1) []) ∧
    (res.2.2 ≠ none → res = ([], [], some errNotFound)) ∧
    (∀ line, firstDefaultLine out = some line →
      res = (getDefaultGateway { env with routeShow := (line, none) } s).2) := by
  have hres : (getDefaultGateway { env with routeShow := (out, none) } s).2
      = parseDefaultRoute out none := rfl
  simp only [hres]
  cases hfirst : firstDefaultLine out with
  | none =>
    have hp := parseDefaultRoute_of_no_first out hfirst
    rw [hp]
    simp
  | some line =>
    have hself := firstDefaultLine_self out line hfirst
    have hsame : parseDefaultRoute out none = parseDefaultRoute line none := by
      rw [parseDefaultRoute_of_first out line hfirst, parseDefaultRoute_of_first line line hself]
    rcases parseDefaultRoute_cases out line hfirst with
      ⟨i, j, hi, hj, hgi, hdj, hp⟩ | ⟨hno, hp⟩
    · rw [hp]
      refine ⟨?_, ?_, ?_, ?_⟩
      · simp only [true_iff]
        exact ⟨line, rfl, ⟨i, hi.1⟩, ⟨j, hj.1⟩⟩
      · intro _
        exact ⟨hgi, hdj, line, i, j, rfl, hi, rfl, hj, rfl⟩
      · intro hne
        exact absurd rfl hne
      · intro l hl
        cases hl
        rw [← hp, hsame]
        rfl
    · rw [hp]
      refine ⟨?_, ?_, ?_, ?_⟩
      · constructor
        · intro habs
          cases habs
        · rintro ⟨l, hl, ⟨i, hi⟩, ⟨j, hj⟩⟩
          cases hl
          rcases hno with hno | hno
          · exact absurd hi (hno i)
          · exact absurd hj (hno j)
      · intro habs
        cases habs
      · intro _
        rfl
      · intro l hl
        cases hl
        rw [← hp, hsame]
        rfl

theorem routeIPs_eq (env : Env) (ips : List IP) : ∀ s : State,
    routeIPs env s ips =
      { s with trace := s.trace ++ ipEvents s.portal.gateway s.portal.iface ips } := by
  induction ips with
  | nil => intro s; simp [routeIPs, ipEvents]
  | cons ip rest ih =>
    intro s
    unfold routeIPs
    cases h : To4 ip with
    | none =>
      simp only [ih, ipEvents, List.filterMap_cons, h, Option.map_none']
    | some ip4 =>
      simp only [ih, ipEvents, List.filterMap_cons, h, Option.map_some', runCmd, State.emit,
        List.append_assoc, List.singleton_append]

theorem routeHosts_eq (env : Env) (hs : List Str) : ∀ s : State,
    routeHosts env s hs =
      { s with trace := s.trace ++
          hs.flatMap (hostEvents env s.portal.gateway s.portal.iface) } := by
  induction hs with
  | nil => intro s; simp [routeHosts]
  | cons host rest ih =>
    intro s
    unfold routeHosts
    rcases h : env.lookupIP host with ⟨ips, _ | err⟩
    · simp only [ih, routeIPs_eq, List.flatMap_cons, hostEvents, h, List.append_assoc]
    · simp only [ih, List.flatMap_cons, hostEvents, h, List.nil_append]

theorem setBypassRoutes_eq (env : Env) (s : State) :
    setBypassRoutes env s =
      { s with trace := s.trace ++ bypassEvents env s.portal.gateway s.portal.iface } := by
  unfold setBypassRoutes hosts
  rw [routeHosts_eq]
  simp [bypassEvents, List.flatMap_cons]

theorem configTUN_eq (env : Env) (s : State) (ip netmask : Str) :
    configTUN env s ip netmask =
      runUntilFailure env s (configTUNCommands ip netmask s.portal.iface) := by
  unfold configTUN
  simp only [configTUNCommands, runUntilFailure, sprintfSlash]
  repeat' split
  all_goals simp only [runCmd, State.emit, Prod.mk.injEq] at *
  all_goals casesm* _ ∧ _
  all_goals subst_vars
  all_goals simp_all

theorem resultAt_zero (env : Env) (s : State) (c : List Str) (cs : List (List Str)) :
    resultAt env s (c :: cs) 0 = env.run s.trace c := by
  simp [resultAt]

theorem resultAt_succ (env : Env) (s : State) (c : List Str) (cs : List (List Str)) (k : Nat) :
    resultAt env s (c :: cs) (k + 1) = resultAt env (s.emit (Event.run c)) cs k := by
  simp [resultAt, State.emit]

theorem runUntilFailure_cons_none (env : Env) (s : State) (c : List Str) (cs : List (List Str))
    (h : env.run s.trace c = none) :
    runUntilFailure env s (c :: cs) = runUntilFailure env (s.emit (Event.run c)) cs := by
  simp [runUntilFailure, runCmd, h]

theorem runUntilFailure_cons_some (env : Env) (s : State) (c : List Str) (cs : List (List Str))
    (e : Err) (h : env.run s.trace c = some e) :
    runUntilFailure env s (c :: cs) = (s.emit (Event.run c), some e) := by
  simp [runUntilFailure, runCmd, h]

theorem runUntilFailure_all (env : Env) (cmds : List (List Str)) : ∀ s : State,
    (∀ k, k < cmds.length → resultAt env s cmds k = none) →
    runUntilFailure env s cmds = ({ s with trace := s.trace ++ cmds.map Event.run }, none) := by
  induction cmds with
  | nil => intro s _; simp [runUntilFailure]
  | cons c cs ih =>
    intro s h
    have h0 : env.run s.trace c = none := by
      rw [← resultAt_zero env s c cs]; exact h 0 (by simp)
    rw [runUntilFailure_cons_none env s c cs h0, ih]
    · simp [State.emit]
    · intro k hk
      rw [← resultAt_succ]
      exact h (k + 1) (by simpa using hk)

theorem runUntilFailure_first (env : Env) (cmds : List (List Str)) : ∀ (s : State) (k : Nat) (e : Err),
    k < cmds.length → (∀ j, j < k → resultAt env s cmds j = none) →
    resultAt env s cmds k = some e →
    runUntilFailure env s cmds =
      ({ s with trace := s.trace ++ (cmds.take (k + 1)).map Event.run }, some e) := by
  induction cmds with
  | nil => intro s k e hk; simp at hk
  | cons c cs ih =>
    intro s k e hk hbefore hat
    cases k with
    | zero =>
      rw [resultAt_zero] at hat
      rw [runUntilFailure_cons_some env s c cs e hat]
      simp [State.emit]
    | succ k =>
      have h0 : env.run s.trace c = none := by
        rw [← resultAt_zero env s c cs]; exact hbefore 0 (by omega)
      rw [runUntilFailure_cons_none env s c cs h0,
        ih (s.emit (Event.run c)) k e (by simpa using hk)
          (fun j hj => by rw [← resultAt_succ]; exact hbefore (j + 1) (by omega))
          (by rw [← resultAt_succ]; exact hat)]
      simp [State.emit]

theorem runUntilFailure_none (env : Env) (cmds : List (List Str)) : ∀ s : State,
    (runUntilFailure env s cmds).2 = none →
    ∀ k, k < cmds.length → resultAt env s cmds k = none := by
  induction cmds with
  | nil => intro s _ k hk; simp at hk
  | cons c cs ih =>
    intro s h k hk
    cases h0 : env.run s.trace c with
    | some e =>
      rw [runUntilFailure_cons_some env s c cs e h0] at h
      cases h
    | none =>
      rw [runUntilFailure_cons_none env s c cs h0] at h
      cases k with
      | zero => rw [resultAt_zero]; exact h0
      | succ k =>
        rw [resultAt_succ]
        exact ih _ h k (by simpa using hk)

/-- The state after `runUntilFailure` differs from the one before only by run
events appended to the trace. -/
theorem runUntilFailure_state (env : Env) (cmds : List (List Str)) : ∀ s : State,
    ∃ k, (runUntilFailure env s cmds).1 =
      { s with trace := s.trace ++ (cmds.take k).map Event.run } := by
  induction cmds with
  | nil => intro s; exact ⟨0, by simp [runUntilFailure]⟩
  | cons c cs ih =>
    intro s
    cases h0 : env.run s.trace c with
    | some e =>
      refine ⟨1, ?_⟩
      rw [runUntilFailure_cons_some env s c cs e h0]
      simp [State.emit]
    | none =>
      obtain ⟨k, hk⟩ := ih (s.emit (Event.run c))
      refine ⟨k + 1, ?_⟩
      rw [runUntilFailure_cons_none env s c cs h0, hk]
      simp [State.emit]

/-- C5: `configTUN` runs its seven commands in the source order (flush, add
ip/prefix, FORWARD inbound, FORWARD outbound, NAT MASQUERADE on the egress
interface, link up, ip_forward=1); whatever the outcome of each command, the
commands run are the prefix of that sequence up to and including the first
failing one, the error returned is the error of that command, and the result
is nil exactly when all seven succeed. -/
theorem configTUN_stops_at_first_failure (env : Env) (s : State) (ip netmask : Str) :
    let cmds := configTUNCommands ip netmask s.portal.iface
    let r := configTUN env s ip netmask
    cmds.length = 7 ∧
    ((∀ k, k < 7 → resultAt env s cmds k = none) →
      r = ({ s with trace := s.trace ++ cmds.map Event.run }, none)) ∧
    (∀ k e, k < 7 → (∀ j, j < k → resultAt env s cmds j = none) →
      resultAt env s cmds k = some e →
      r = ({ s with trace := s.trace ++ (cmds.take (k + 1)).map Event.run }, some e)) ∧
    (r.2 = none ↔ ∀ k, k < 7 → resultAt env s cmds k = none) := by
  intro cmds r
  have hlen : cmds.length = 7 := rfl
  have hr : r = runUntilFailure env s cmds := configTUN_eq env s ip netmask
  refine ⟨hlen, ?_, ?_, ?_⟩
  · intro h
    rw [hr]
    exact runUntilFailure_all env cmds s (fun k hk => h k (hlen ▸ hk))
  · intro k e hk hbefore hat
    rw [hr]
    exact runUntilFailure_first env cmds s k e (hlen ▸ hk) hbefore hat
  · constructor
    · intro h k hk
      rw [hr] at h
      exact runUntilFailure_none env cmds s h k (hlen ▸ hk)
    · intro h
      rw [hr, runUntilFailure_all env cmds s (fun k hk => h k (hlen ▸ hk))]

/-- C9: `cleanUp` always issues exactly its four commands, in the order
FORWARD inbound delete, FORWARD outbound delete, NAT MASQUERADE delete on the
egress interface, ip_forward=0, whatever the outcome of each command; it
returns no error and changes nothing but the trace, so the steps of `Stop`
after it (device close, server shutdown) are performed all the same. -/
theorem cleanUp_best_effort (env : Env) (s : State) :
    cleanUp env s = { s with trace := s.trace ++ (cleanUpCommands s.portal.iface).map Event.run } ∧
    (∀ env2 : Env, (cleanUp env2 s).trace = (cleanUp env s).trace) ∧
    (stopRest env s).trace =
      (cleanUp env (if s.portal.anchor then s.emit Event.anchorStop else s)).trace ++
        (if s.portal.device then [Event.deviceClose] else []) ++
        (if s.portal.e then [Event.echoShutdown] else []) := by
  refine ⟨?_, ?_, ?_⟩
  · simp [cleanUp, cleanUpCommands, runCmd, State.emit]
  · intro env2
    simp [cleanUp, runCmd, State.emit]
  · cases ha : s.portal.anchor <;> cases hd : s.portal.device <;> cases he : s.portal.e <;>
      simp [stopRest, cleanUp, runCmd, State.emit, ha, hd, he]

theorem Start_error (env : Env) (s : State) (a : StartArgs) :
    (Start env s a).2 = startError env := by
  unfold Start startError
  simp only [getDefaultGateway]
  repeat' split
  all_goals simp_all

theorem ipEvents_isRun (gateway iface : Str) (ips : List IP) :
    ∀ e ∈ ipEvents gateway iface ips, e.isRun = true := by
  intro e he
  simp only [ipEvents, List.mem_filterMap, Option.map_eq_some'] at he
  obtain ⟨ip, _, ip4, _, rfl⟩ := he
  rfl

theorem hostEvents_isRun (env : Env) (gateway iface host : Str) :
    ∀ e ∈ hostEvents env gateway iface host, e.isRun = true := by
  intro e he
  unfold hostEvents at he
  split at he
  · simp at he
  · exact ipEvents_isRun _ _ _ e he

theorem bypassEvents_isRun (env : Env) (gateway iface : Str) :
    ∀ e ∈ bypassEvents env gateway iface, e.isRun = true := by
  intro e he
  simp only [bypassEvents, List.mem_append] at he
  rcases he with (he | he) | he <;> exact hostEvents_isRun _ _ _ _ e he

theorem not_mem_bypassEvents (env : Env) (gateway iface : Str) (e : Event)
    (h : e.isRun = false) : e ∉ bypassEvents env gateway iface := by
  intro he
  rw [bypassEvents_isRun env gateway iface e he] at h
  cases h

theorem configTUN_portal (env : Env) (s : State) (ip netmask : Str) :
    (configTUN env s ip netmask).1.portal = s.portal := by
  rw [configTUN_eq]
  obtain ⟨k, hk⟩ := runUntilFailure_state env (configTUNCommands ip netmask s.portal.iface) s
  rw [hk]

theorem configTUN_anchorCtxDone (env : Env) (s : State) (ip netmask : Str) :
    (configTUN env s ip netmask).1.anchorCtxDone = s.anchorCtxDone := by
  rw [configTUN_eq]
  obtain ⟨k, hk⟩ := runUntilFailure_state env (configTUNCommands ip netmask s.portal.iface) s
  rw [hk]

theorem configTUN_trace (env : Env) (s : State) (ip netmask : Str) :
    ∃ k, (configTUN env s ip netmask).1.trace =
      s.trace ++ ((configTUNCommands ip netmask s.portal.iface).take k).map Event.run := by
  rw [configTUN_eq]
  obtain ⟨k, hk⟩ := runUntilFailure_state env (configTUNCommands ip netmask s.portal.iface) s
  exact ⟨k, by rw [hk]⟩

theorem mem_configTUN_trace (env : Env) (s : State) (ip netmask : Str) (e : Event)
    (h : e.isRun = false) :
    e ∈ (configTUN env s ip netmask).1.trace ↔ e ∈ s.trace := by
  obtain ⟨k, hk⟩ := configTUN_trace env s ip netmask
  rw [hk, List.mem_append]
  constructor
  · rintro (he | he)
    · exact he
    · simp only [List.mem_map] at he
      obtain ⟨argv, _, rfl⟩ := he
      cases h
  · exact Or.inl

theorem Stop_trace (env : Env) (s : State) (h : s.portal.once = false) :
    (Stop env s).trace =
      s.trace ++ [Event.cancel] ++ (if s.portal.anchor then [Event.anchorStop] else []) ++
        (cleanUpCommands s.portal.iface).map Event.run ++
        (if s.portal.device then [Event.deviceClose] else []) ++
        (if s.portal.e then [Event.echoShutdown] else []) := by
  cases ha : s.portal.anchor <;> cases hd : s.portal.device <;> cases he : s.portal.e <;>
    simp [Stop, stopRest, stopCancel, cleanUp, cleanUpCommands, runCmd, State.emit, h, ha, hd, he]

theorem Start_flags (env : Env) (a : StartArgs) :
    (Start env NewPortal a).1.portal.once = false ∧
    (Start env NewPortal a).1.portal.device = deviceCreated env (Start env NewPortal a).1 ∧
    (Start env NewPortal a).1.portal.anchor = anchorCreated env a (Start env NewPortal a).1 ∧
    (Start env NewPortal a).1.portal.e = serverCreated (Start env NewPortal a).1 := by
  unfold Start
  simp only [getDefaultGateway, setBypassRoutes_eq]
  repeat' split
  all_goals simp only [Prod.mk.injEq] at *
  all_goals casesm* _ ∧ _
  all_goals subst_vars
  all_goals
    simp [deviceCreated, anchorCreated, serverCreated, NewPortal, State.emit, configTUN_portal,
      mem_configTUN_trace, not_mem_bypassEvents, Event.isRun, *]

theorem Start_device (env : Env) (s : State) (a : StartArgs)
    (hgw : (parseDefaultRoute env.routeShow.1 env.routeShow.2).2.2 = none)
    (htun : env.createTUN = none) : (Start env s a).1.portal.device = true := by
  unfold Start
  simp only [getDefaultGateway, setBypassRoutes_eq]
  repeat' split
  all_goals simp only [Prod.mk.injEq] at *
  all_goals casesm* _ ∧ _
  all_goals subst_vars
  all_goals simp_all [State.emit, configTUN_portal]

theorem Stop_of_once (env : Env) (s : State) (h : s.portal.once = true) : Stop env s = s := by
  simp [Stop, h]

theorem Stop_once (env : Env) (s : State) : (Stop env s).portal.once = true := by
  unfold Stop
  split
  · assumption
  · rfl

theorem stopTimes_of_once (env : Env) (n : Nat) : ∀ s : State,
    s.portal.once = true → stopTimes env n s = s := by
  induction n with
  | zero => intro s _; rfl
  | succ n ih =>
    intro s h
    rw [stopTimes, Stop_of_once env s h, ih s h]

/-- C2: `Stop` is idempotent. On a portal whose `once` has not fired, the
first call runs the teardown sequence (cancel, anchor stop, cleanUp, device
close, server shutdown) and `n` successive calls run it exactly once; from any
state, `n >= 1` successive calls leave exactly the state the first call left,
and a further call performs no action and changes nothing. -/
theorem Stop_idempotent (env : Env) (s : State) (n : Nat) (hn : 1 ≤ n) :
    (s.portal.once = false →
      (Stop env s).trace = s.trace ++ teardownEvents s.portal ∧
      (stopTimes env n s).trace = s.trace ++ teardownEvents s.portal) ∧
    stopTimes env n s = Stop env s ∧
    Stop env (stopTimes env n s) = stopTimes env n s := by
  obtain ⟨m, rfl⟩ : ∃ m, n = m + 1 := ⟨n - 1, by omega⟩
  have hall : stopTimes env (m + 1) s = Stop env s := by
    rw [stopTimes, stopTimes_of_once env m _ (Stop_once env s)]
  refine ⟨?_, hall, ?_⟩
  · intro h
    have ht : (Stop env s).trace = s.trace ++ teardownEvents s.portal := by
      rw [Stop_trace env s h]
      simp [teardownEvents]
    exact ⟨ht, by rw [hall, ht]⟩
  · rw [hall]
    exact Stop_of_once env _ (Stop_once env s)

/-- C4: for the portal made by `NewPortal`, after zero or one call of `Start`
(whatever `Start` did and wherever it failed), the first `Stop` performs, in
this order: cancel, anchor stop, the four cleanUp commands, device close,
server shutdown, where anchor stop, device close and server shutdown are
performed exactly when the anchor, the device and the server were created; in
particular a device created before the anchor failed to be created or to start
is closed by `Stop`. -/
theorem Stop_order_after_Start (env env2 : Env) (a : StartArgs) (started : Bool) :
    let s := if started then (Start env NewPortal a).1 else NewPortal
    (Stop env2 s).trace =
      s.trace ++ [Event.cancel] ++
        (if anchorCreated env a s then [Event.anchorStop] else []) ++
        (cleanUpCommands s.portal.iface).map Event.run ++
        (if deviceCreated env s then [Event.deviceClose] else []) ++
        (if serverCreated s then [Event.echoShutdown] else []) ∧
    (started = true → (parseDefaultRoute env.routeShow.1 env.routeShow.2).2.2 = none →
      env.createTUN = none → (env.newAnchor ≠ none ∨ env.anchorStart ≠ none) →
      (Start env NewPortal a).2 ≠ none ∧ deviceCreated env s = true ∧
      Event.deviceClose ∈ (Stop env2 s).trace) := by
  cases started with
  | false =>
    refine ⟨?_, fun h => by cases h⟩
    simp [Stop, stopRest, stopCancel, cleanUp, cleanUpCommands, runCmd, State.emit, NewPortal,
      anchorCreated, deviceCreated, serverCreated]
  | true =>
    obtain ⟨honce, hdev, hanc, he⟩ := Start_flags env a
    have htrace := Stop_trace env2 (Start env NewPortal a).1 honce
    rw [hdev, hanc, he] at htrace
    refine ⟨by simpa using htrace, ?_⟩
    intro _ hgw htun hfail
    have hd : deviceCreated env (Start env NewPortal a).1 = true := by
      rw [← hdev]; exact Start_device env NewPortal a hgw htun
    refine ⟨?_, by simpa using hd, ?_⟩
    · rw [Start_error]
      unfold startError
      rcases hfail with hfail | hfail
      · cases hna : env.newAnchor with
        | none => exact absurd hna hfail
        | some e => split <;> simp_all
      · cases hna : env.anchorStart with
        | none => exact absurd hna hfail
        | some e =>
          split
          · simp_all
          · simp only [htun]
            split <;> simp
    · simp only [if_true]
      rw [htrace, hd]
      simp

theorem ipEvents_routeAdd (gateway iface : Str) (ips : List IP) :
    ∀ e ∈ ipEvents gateway iface ips, ∃ dest, e = Event.run (routeAddArgv dest gateway iface) := by
  intro e he
  simp only [ipEvents, List.mem_filterMap, Option.map_eq_some'] at he
  obtain ⟨ip, _, ip4, _, rfl⟩ := he
  exact ⟨_, rfl⟩

theorem bypassEvents_routeAdd (env : Env) (gateway iface : Str) :
    ∀ e ∈ bypassEvents env gateway iface,
      ∃ dest, e = Event.run (routeAddArgv dest gateway iface) := by
  intro e he
  simp only [bypassEvents, List.mem_append] at he
  have hhost : ∀ host, e ∈ hostEvents env gateway iface host →
      ∃ dest, e = Event.run (routeAddArgv dest gateway iface) := by
    intro host hh
    unfold hostEvents at hh
    split at hh
    · simp at hh
    · exact ipEvents_routeAdd _ _ _ e hh
  rcases he with (he | he) | he <;> exact hhost _ he

theorem routeAdd_not_configTUN (dest gateway iface ip netmask iface2 : Str) :
    routeAddArgv dest gateway iface ∉ configTUNCommands ip netmask iface2 := by
  simp [routeAddArgv, configTUNCommands]

theorem Split_two (sep : Char) (s : Str) (h : s.count sep = 1) :
    ∃ a b, Split sep s = [a, b] ∧ a ++ [sep] ++ b = s ∧ sep ∉ a ∧ sep ∉ b := by
  have hlen := Split_length sep s
  rw [h] at hlen
  have hint := Split_intercalate sep s
  have hmem := Split_not_mem sep s
  match hs : Split sep s, hlen with
  | [a, b], _ =>
    rw [hs] at hint hmem
    refine ⟨a, b, rfl, ?_, hmem a (by simp), hmem b (by simp)⟩
    simpa [List.intercalate, List.intersperse] using hint

/-- C3: when `Start` has obtained the string `cidr` from the anchor, a `cidr`
with exactly one '/' is split into exactly two components, the text before and
the text after the '/', and `configTUN` is called with them; a `cidr` with no
or several '/' makes `Start` return the error "invalid CIDR format: <cidr>"
in the state reached when `GetCIDR` returned, in which no command of
`configTUN` has been run. -/
theorem Start_cidr_extraction (env : Env) (s : State) (a : StartArgs) (cidr : Str)
    (hgw : (parseDefaultRoute env.routeShow.1 env.routeShow.2).2.2 = none)
    (htun : env.createTUN = none) (hnew : env.newAnchor = none)
    (hstart : env.anchorStart = none) (hcidr : env.getCIDR = (cidr, none)) :
    let r := parseDefaultRoute env.routeShow.1 env.routeShow.2
    let s1 : State :=
      { portal := { s.portal with gateway := r.1, iface := r.2.1, device := true, anchor := true },
        anchorCtxDone := s.anchorCtxDone,
        trace := s.trace ++
          [Event.output ["ip".toList, "route".toList, "show".toList, "default".toList]] ++
          bypassEvents env r.1 r.2.1 ++
          [Event.createTUN "veilnet".toList 1500, Event.newAnchor a.pub,
            Event.anchorStart a.apiBaseURL a.anchorToken a.anchorName a.domainName a.region,
            Event.anchorGetCIDR] }
    (cidr.count '/' = 1 →
      ∃ ip pre, Split '/' cidr = [ip, pre] ∧ ip ++ "/".toList ++ pre = cidr ∧
        '/' ∉ ip ∧ '/' ∉ pre ∧
        (Start env s a).2 = none ∧
        (Start env s a).1.trace = (configTUN env s1 ip pre).1.trace ++
          [Event.goIngress, Event.goEgress, Event.echoNew, Event.goEchoStart]) ∧
    (cidr.count '/' ≠ 1 →
      Start env s a = (s1, some (errInvalidCIDR cidr)) ∧
      ∀ ip netmask iface c, c ∈ configTUNCommands ip netmask iface →
        Event.run c ∉ s1.trace.drop s.trace.length) := by
  intro r s1
  rcases hparse : parseDefaultRoute env.routeShow.1 env.routeShow.2 with ⟨g, i, e⟩
  have he : e = none := by
    have := hgw
    rw [hparse] at this
    exact this
  subst he
  have hr : r = (g, i, none) := hparse
  constructor
  · intro hcount
    obtain ⟨ip, pre, hsplit, hjoin, hip, hpre⟩ := Split_two '/' cidr hcount
    refine ⟨ip, pre, hsplit, by simpa using hjoin, hip, hpre, ?_, ?_⟩
    · rw [Start_error]
      simp [startError, hparse, htun, hnew, hstart, hcidr, hsplit]
    · simp only [Start, getDefaultGateway, setBypassRoutes_eq, hparse, htun, hnew, hstart, hcidr,
        hsplit]
      simp [State.emit, s1, hr]
  · intro hcount
    have hlen : (Split '/' cidr).length ≠ 2 := by
      rw [Split_length]
      omega
    constructor
    · simp only [Start, getDefaultGateway, setBypassRoutes_eq, hparse, htun, hnew, hstart, hcidr]
      simp [State.emit, s1, hr, hlen]
    · intro ip netmask iface c hc hmem
      simp only [s1, List.append_assoc, List.drop_left, List.mem_append, List.mem_cons,
        List.mem_singleton] at hmem
      rcases hmem with hmem | hmem | hmem
      · simp at hmem
      · obtain ⟨dest, hd⟩ := bypassEvents_routeAdd env _ _ _ hmem
        cases hd
        exact routeAdd_not_configTUN _ _ _ _ _ _ hc
      · simp at hmem

/-- On a portal whose device is nil, both forwarding loops panic before any
read or write. -/
theorem loops_panic_without_device (s : State) (areads : List AnchorRead)
    (dreads : List DeviceRead) (hdev : s.portal.device = false) :
    ingress s areads = Loop.panicked s errNilDeref ∧
    egress s dreads = Loop.panicked s errNilDeref := by
  simp [ingress, egress, hdev]

/-- On a portal whose anchor is nil, both forwarding loops panic at their first
cancellation check. -/
theorem loops_panic_without_anchor (s : State) (areads : List AnchorRead)
    (dreads : List DeviceRead) (hanc : s.portal.anchor = false) :
    (∃ msg, ingress s areads = Loop.panicked s msg) ∧
    (∃ msg, egress s dreads = Loop.panicked s msg) := by
  refine ⟨⟨errNilDeref, ?_⟩, ⟨errNilDeref, ?_⟩⟩
  · cases areads <;> cases hd : s.portal.device <;> simp [ingress, ingressLoop, hanc, hd]
  · cases dreads <;> cases hd : s.portal.device <;> simp [egress, egressLoop, hanc, hd]

/-- C1 fails on the code: `ip addr flush dev veilnet`, the first command of
`configTUN`, fails, `configTUN` returns that error from whatever state it is
called in, and `Start` still returns nil and launches the ingress loop, the
egress loop and the status server. -/
theorem Start_drops_configTUN_error :
    (∀ s : State, (configTUN flushFailsEnv s "10.0.0.2".toList "24".toList).2 =
      some "exit status 1".toList) ∧
    Start flushFailsEnv NewPortal sampleArgs =
      ({ portal := { anchor := true, device := true, gateway := "192.168.1.1".toList,
                     iface := "eth0".toList, e := true, once := false, ctxDone := false },
         anchorCtxDone := false,
         trace :=
          [Event.output ["ip".toList, "route".toList, "show".toList, "default".toList],
           Event.run ["ip".toList, "route".toList, "add".toList, "162.159.207.0".toList,
             "via".toList, "192.168.1.1".toList, "dev".toList, "eth0".toList],
           Event.createTUN "veilnet".toList 1500,
           Event.newAnchor true,
           Event.anchorStart "https://guardian.veilnet.org".toList "token".toList
             "portal-1".toList "example".toList "au".toList,
           Event.anchorGetCIDR,
           Event.run ["ip".toList, "addr".toList, "flush".toList, "dev".toList, "veilnet".toList],
           Event.goIngress, Event.goEgress, Event.echoNew, Event.goEchoStart] },
       none) := by
  constructor
  · intro s
    simp [configTUN, runCmd, flushFailsEnv]
  · decide

/-- C10 fails on the code: after a successful `Start`, the first step of
`Stop` cancels the portal's own context, which neither loop reads; the loops
check the anchor's context, which that step leaves untouched, so the next
check of each loop does not see a signal: ingress goes on to write a batch to
the device and egress goes on to write a batch to the anchor. With an anchor
whose `Stop` does not cancel its own context, the same holds after the whole
of `Stop`. -/
theorem cancel_not_observed_by_loops :
    (Start healthyEnv NewPortal sampleArgs).2 = none ∧
    (stopCancel (Start healthyEnv NewPortal sampleArgs).1).portal.ctxDone = true ∧
    (stopCancel (Start healthyEnv NewPortal sampleArgs).1).anchorCtxDone = false ∧
    ingress (stopCancel (Start healthyEnv NewPortal sampleArgs).1) [sampleAnchorRead] =
      Loop.running ((stopCancel (Start healthyEnv NewPortal sampleArgs).1).emit
        (Event.deviceWrite
          [[0, 0, 0, 0, 0, 0, 0, 0, 0, 0, 0, 0, 0, 0, 0, 0, 0x45, 0, 0, 20],
           [0, 0, 0, 0, 0, 0, 0, 0, 0, 0, 0, 0, 0, 0, 0, 0, 0x45, 1]] 16)) ∧
    egress (stopCancel (Start healthyEnv NewPortal sampleArgs).1) [sampleDeviceRead] =
      Loop.running ((stopCancel (Start healthyEnv NewPortal sampleArgs).1).emit
        (Event.anchorWrite [[0x45, 0, 0, 20]] [4])) ∧
    (∃ s, ingress (Stop { healthyEnv with anchorStopCancelsCtx := false }
        (Start healthyEnv NewPortal sampleArgs).1) [sampleAnchorRead] = Loop.running s) ∧
    (∃ s, egress (Stop { healthyEnv with anchorStopCancelsCtx := false }
        (Start healthyEnv NewPortal sampleArgs).1) [sampleDeviceRead] = Loop.running s) := by
  exact ⟨by decide, by decide, by decide, by decide, by decide, ⟨_, rfl⟩, ⟨_, rfl⟩⟩

/-- C2 at a concrete input: three calls of `Stop` on a fresh portal. -/
theorem Stop_idempotent_witness :
    stopTimes healthyEnv 3 NewPortal = Stop healthyEnv NewPortal ∧
    (stopTimes healthyEnv 3 NewPortal).trace =
      [Event.cancel,
       Event.run ["iptables".toList, "-D".toList, "FORWARD".toList, "-i".toList, "veilnet".toList,
         "-j".toList, "ACCEPT".toList],
       Event.run ["iptables".toList, "-D".toList, "FORWARD".toList, "-o".toList, "veilnet".toList,
         "-j".toList, "ACCEPT".toList],
       Event.run ["iptables".toList, "-t".toList, "nat".toList, "-D".toList, "POSTROUTING".toList,
         "-o".toList, [], "-j".toList, "MASQUERADE".toList],
       Event.run ["sysctl".toList, "-w".toList, "net.ipv4.ip_forward=0".toList]] :=
  ⟨(Stop_idempotent healthyEnv NewPortal 3 (by decide)).2.1,
   ((Stop_idempotent healthyEnv NewPortal 3 (by decide)).1 rfl).2⟩

/-- C3 at a concrete input: the anchor hands out "10.0.0.2/24". -/
theorem Start_cidr_extraction_witness :
    List.count '/' "10.0.0.2/24".toList = 1 ∧
    ∃ ip pre, Split '/' "10.0.0.2/24".toList = [ip, pre] ∧
      ip ++ "/".toList ++ pre = "10.0.0.2/24".toList ∧
      (Start healthyEnv NewPortal sampleArgs).2 = none := by
  refine ⟨by decide, ?_⟩
  obtain ⟨ip, pre, h1, h2, _, _, h3, _⟩ :=
    (Start_cidr_extraction healthyEnv NewPortal sampleArgs "10.0.0.2/24".toList
      (by decide) rfl rfl rfl rfl).1 (by decide)
  exact ⟨ip, pre, h1, h2, h3⟩

/-- C4 at a concrete input: the anchor fails to start after the device was
created, and the later `Stop` closes the device. -/
theorem Stop_order_after_Start_witness :
    (Start anchorFailsEnv NewPortal sampleArgs).2 ≠ none ∧
    Event.deviceClose ∈ (Stop healthyEnv (Start anchorFailsEnv NewPortal sampleArgs).1).trace := by
  have h := (Stop_order_after_Start anchorFailsEnv healthyEnv sampleArgs true).2 rfl
    (by decide) rfl (Or.inr (by decide))
  exact ⟨h.1, h.2.2⟩

/-- C5 at a concrete input: the first command fails and is the only one run. -/
theorem configTUN_stops_at_first_failure_witness :
    configTUN flushFailsEnv NewPortal "10.0.0.2".toList "24".toList =
      ({ NewPortal with
          trace := [Event.run ["ip".toList, "addr".toList, "flush".toList, "dev".toList,
            "veilnet".toList]] },
        some "exit status 1".toList) :=
  (configTUN_stops_at_first_failure flushFailsEnv NewPortal "10.0.0.2".toList "24".toList).2.2.1 0
    "exit status 1".toList (by decide) (fun j hj => absurd hj (Nat.not_lt_zero j)) (by decide)

/-- C8 at a concrete input: two default routes, the first one is used. -/
theorem getDefaultGateway_first_default_line_witness :
    (getDefaultGateway { healthyEnv with routeShow :=
        ("default via 192.168.1.1 dev eth0\ndefault via 10.9.9.9 dev wlan0".toList, none) }
      NewPortal).2 =
    (getDefaultGateway { healthyEnv with routeShow :=
        ("default via 192.168.1.1 dev eth0".toList, none) } NewPortal).2 :=
  (getDefaultGateway_first_default_line healthyEnv NewPortal
    "default via 192.168.1.1 dev eth0\ndefault via 10.9.9.9 dev wlan0".toList).2.2.2
    "default via 192.168.1.1 dev eth0".toList (by decide)

end VeilNet
